import Mathlib

/-!
Shallow embedding of the client-side real-time state synchronization layer of
the Dashboard-for-stackly repository (`src/src/contexts/AuthContext.jsx`).

The AuthProvider component holds the authenticated principal (`user`), the
bearer token (`token`), and in-memory mirrors of two server-owned collections
(`users`, `sessions`), plus the two durable localStorage slots (`user`,
`token`).  We model that React state as an explicit record `Store`, the
WebSocket handler `handleWsMessage` as a pure state transformer over parsed
envelopes, and the six Command Gateway operations as pure functions of the
token and an abstracted fetch outcome.  JavaScript `null`/`undefined` is
`Option`, object records are Lean structures whose extra profile fields are an
association list, and `localStorage` is a pair of `Option String` slots.
-/

namespace Dashboard

/-- Local mirror entry for a server-side user record: numeric identifier plus
the remaining profile fields (username, role, ...) as an association list. -/
structure UserRec where
  id : Int
  fields : List (String × String)
  deriving DecidableEq

/-- Local mirror entry for a server-side training-session record.  `status`
and `updated_at` are separate because the `session_updated` envelope patches
exactly those two fields; everything else lives in `fields`. -/
structure SessionRec where
  id : Int
  status : String
  updated_at : String
  fields : List (String × String)
  deriving DecidableEq

/-- The two durable localStorage slots: serialized principal and token. -/
structure Storage where
  userSlot : Option String
  tokenSlot : Option String
  deriving DecidableEq

/-- The AuthProvider state: current principal, bearer token, the two
collection mirrors, and the durable storage. -/
structure Store where
  user : Option UserRec
  token : Option String
  users : List UserRec
  sessions : List SessionRec
  storage : Storage
  deriving DecidableEq

/-- A parsed WebSocket notification envelope (`{type, data}`), one constructor
per discriminant handled by the `switch` in `handleWsMessage`; the `user_updated`
payload carries both `data.user_id` and the full `data.user` record. -/
inductive WsMessage where
  | user_created (u : UserRec)
  | user_updated (user_id : Int) (u : UserRec)
  | user_deleted (user_id : Int)
  | session_created (s : SessionRec)
  | session_updated (session_id : Int) (status : String) (updated_at : String)
  | session_deleted (session_id : Int)
  | unknown (t : String)
  deriving DecidableEq

/-- JavaScript truthiness of a nullable string (`!token`, `storedUser && ...`):
null/undefined and the empty string are falsy. -/
def truthy : Option String → Bool
  | none => false
  | some s => s != ""

/-- The WebSocket message handler (AuthContext.jsx lines 44-81), after JSON
parsing.  `user_created`/`session_created` append the payload; `user_updated`
maps a wholesale replacement over the user mirror and, when the target is the
current principal, replaces the principal too; `session_updated` patches only
`status`/`updated_at`; the `deleted` variants filter the mirror, and a
`user_deleted` aimed at the current principal also clears the credential and
both localStorage slots.  Unknown discriminants are logged and ignored. -/
def handleWsMessage (st : Store) (msg : WsMessage) : Store :=
  match msg with
  | .user_created u =>
      { st with users := st.users ++ [u] }
  | .user_updated uid u =>
      let st1 := { st with users := st.users.map fun x : UserRec => if x.id == uid then u else x }
      match st1.user with
      | some cu => if cu.id == uid then { st1 with user := some u } else st1
      | none => st1
  | .user_deleted uid =>
      let st1 := { st with users := st.users.filter fun x : UserRec => x.id != uid }
      match st1.user with
      | some cu =>
          if cu.id == uid then
            { st1 with user := none, token := none, storage := ⟨none, none⟩ }
          else st1
      | none => st1
  | .session_created s =>
      { st with sessions := st.sessions ++ [s] }
  | .session_updated sid stat ua =>
      { st with sessions := st.sessions.map fun s : SessionRec =>
          if s.id == sid then { s with status := stat, updated_at := ua } else s }
  | .session_deleted sid =>
      { st with sessions := st.sessions.filter fun s : SessionRec => s.id != sid }
  | .unknown _ => st

/-- Abstract HTTP response: `ok` is `res.ok`, `detail` is the parsed error
body's `detail` field when present, `body` the parsed success payload. -/
structure Response (α : Type) where
  ok : Bool
  detail : Option String
  body : α
  deriving DecidableEq

/-- Outcome of one `fetch` call: either a response arrived or the request
itself threw (network/connectivity failure). -/
inductive Fetch (α : Type) where
  | resp (r : Response α)
  | netErr (msg : String)
  deriving DecidableEq

/-- What one Command Gateway call produces: the value returned to the caller,
whether a network request was issued at all, and the message passed to
`console.error` by the `catch` block (none when nothing was thrown). -/
structure OpOutcome (α : Type) where
  result : α
  networkCalled : Bool
  logged : Option String
  deriving DecidableEq

/-- `createUser` (lines 161-180): bail out with `null` before any fetch when
the token is falsy; on a non-ok response throw `detail || generic`, which the
catch converts to a log plus a `null` return; network errors likewise. -/
def createUser (token : Option String) (userData : List (String × String))
    (remote : Fetch UserRec) : OpOutcome (Option UserRec) :=
  if truthy token then
    match remote with
    | .resp r =>
        if r.ok then ⟨some r.body, true, none⟩
        else ⟨none, true, some (r.detail.getD "Failed to create user")⟩
    | .netErr m => ⟨none, true, some m⟩
  else ⟨none, false, none⟩

/-- `updateUserById` (lines 183-202), same shape as `createUser`. -/
def updateUserById (token : Option String) (id : Int) (updates : List (String × String))
    (remote : Fetch UserRec) : OpOutcome (Option UserRec) :=
  if truthy token then
    match remote with
    | .resp r =>
        if r.ok then ⟨some r.body, true, none⟩
        else ⟨none, true, some (r.detail.getD "Failed to update user")⟩
    | .netErr m => ⟨none, true, some m⟩
  else ⟨none, false, none⟩

/-- `deleteUser` (lines 205-222): returns `false` without a token, `true` on
success, `false` (with a logged reason) on failure. -/
def deleteUser (token : Option String) (id : Int)
    (remote : Fetch Unit) : OpOutcome Bool :=
  if truthy token then
    match remote with
    | .resp r =>
        if r.ok then ⟨true, true, none⟩
        else ⟨false, true, some (r.detail.getD "Failed to delete user")⟩
    | .netErr m => ⟨false, true, some m⟩
  else ⟨false, false, none⟩

/-- `createSession` (lines 225-244). -/
def createSession (token : Option String) (sessionData : List (String × String))
    (remote : Fetch SessionRec) : OpOutcome (Option SessionRec) :=
  if truthy token then
    match remote with
    | .resp r =>
        if r.ok then ⟨some r.body, true, none⟩
        else ⟨none, true, some (r.detail.getD "Failed to create session")⟩
    | .netErr m => ⟨none, true, some m⟩
  else ⟨none, false, none⟩

/-- `updateSession` (lines 247-266). -/
def updateSession (token : Option String) (id : Int) (updates : List (String × String))
    (remote : Fetch SessionRec) : OpOutcome (Option SessionRec) :=
  if truthy token then
    match remote with
    | .resp r =>
        if r.ok then ⟨some r.body, true, none⟩
        else ⟨none, true, some (r.detail.getD "Failed to update session")⟩
    | .netErr m => ⟨none, true, some m⟩
  else ⟨none, false, none⟩

/-- `deleteSession` (lines 269-286). -/
def deleteSession (token : Option String) (id : Int)
    (remote : Fetch Unit) : OpOutcome Bool :=
  if truthy token then
    match remote with
    | .resp r =>
        if r.ok then ⟨true, true, none⟩
        else ⟨false, true, some (r.detail.getD "Failed to delete session")⟩
    | .netErr m => ⟨false, true, some m⟩
  else ⟨false, false, none⟩

/-! ### A model of `JSON.parse` / `JSON.stringify`

`restore` (the mount-time effect, lines 112-120) runs `JSON.parse` on the
stored principal with no surrounding try/catch, so its behavior on malformed
storage depends on parse failure being a thrown exception.  We model the JSON
values this application exchanges (objects of strings/integers, arrays,
literals; string escapes are not modelled because the client never writes
them) and a total recursive-descent parser returning `none` where `JSON.parse`
would throw a SyntaxError. -/

/-- JSON value tree. -/
inductive Json where
  | jnull
  | jbool (b : Bool)
  | jnum (n : Int)
  | jstr (s : String)
  | jarr (elems : List Json)
  | jobj (members : List (String × Json))

/-- The double-quote, open-brace and close-brace characters. -/
def dq : Char := Char.ofNat 34

def obr : Char := Char.ofNat 123

def cbr : Char := Char.ofNat 125

def isWsChar (c : Char) : Bool := c == ' ' || c == '\n' || c == '\t' || c == '\r'

def skipWs : List Char → List Char
  | [] => []
  | c :: cs => if isWsChar c then skipWs cs else c :: cs

/-- Consume the body of a string literal up to the closing quote. -/
def parseStrBody : List Char → Option (List Char × List Char)
  | [] => none
  | c :: cs =>
      if c == dq then some ([], cs)
      else
        match parseStrBody cs with
        | some (s, rest) => some (c :: s, rest)
        | none => none

def takeDigits : List Char → List Char × List Char
  | [] => ([], [])
  | c :: cs =>
      if c.isDigit then
        let (ds, rest) := takeDigits cs
        (c :: ds, rest)
      else ([], c :: cs)

def digitsToNat (ds : List Char) : Nat :=
  ds.foldl (fun acc c => acc * 10 + (c.toNat - 48)) 0

/-- Parse an (optionally negated) integer literal. -/
def parseNum : List Char → Option (Int × List Char)
  | [] => none
  | c :: cs =>
      if c == '-' then
        match takeDigits cs with
        | ([], _) => none
        | (ds, rest) => some (-(Int.ofNat (digitsToNat ds)), rest)
      else if c.isDigit then
        match takeDigits (c :: cs) with
        | (ds, rest) => some (Int.ofNat (digitsToNat ds), rest)
      else none

/-- Match an exact literal tail (used for null/true/false). -/
def matchLit : List Char → List Char → Option (List Char)
  | [], cs => some cs
  | l :: ls, c :: cs => if c == l then matchLit ls cs else none
  | _ :: _, [] => none

mutual

/-- Fuel-indexed JSON value parser; fuel bounds the nesting recursion. -/
def parseVal : Nat → List Char → Option (Json × List Char)
  | 0, _ => none
  | fuel + 1, cs =>
      match skipWs cs with
      | [] => none
      | c :: cs1 =>
          if c == 'n' then (matchLit ['u', 'l', 'l'] cs1).map (fun r => (Json.jnull, r))
          else if c == 't' then (matchLit ['r', 'u', 'e'] cs1).map (fun r => (Json.jbool true, r))
          else if c == 'f' then
            (matchLit ['a', 'l', 's', 'e'] cs1).map (fun r => (Json.jbool false, r))
          else if c == dq then
            match parseStrBody cs1 with
            | some (s, rest) => some (Json.jstr (String.mk s), rest)
            | none => none
          else if c == '[' then
            match skipWs cs1 with
            | [] => none
            | c2 :: cs2 =>
                if c2 == ']' then some (Json.jarr [], cs2)
                else
                  match parseElems fuel (c2 :: cs2) with
                  | some (es, rest) => some (Json.jarr es, rest)
                  | none => none
          else if c == obr then
            match skipWs cs1 with
            | [] => none
            | c2 :: cs2 =>
                if c2 == cbr then some (Json.jobj [], cs2)
                else
                  match parseMembers fuel (c2 :: cs2) with
                  | some (ms, rest) => some (Json.jobj ms, rest)
                  | none => none
          else
            match parseNum (c :: cs1) with
            | some (n, rest) => some (Json.jnum n, rest)
            | none => none

/-- Comma-separated array elements followed by a closing bracket. -/
def parseElems : Nat → List Char → Option (List Json × List Char)
  | 0, _ => none
  | fuel + 1, cs =>
      match parseVal fuel cs with
      | none => none
      | some (v, rest) =>
          match skipWs rest with
          | [] => none
          | c :: cs2 =>
              if c == ',' then
                match parseElems fuel cs2 with
                | some (vs, rest2) => some (v :: vs, rest2)
                | none => none
              else if c == ']' then some ([v], cs2)
              else none

/-- Comma-separated object members followed by a closing brace. -/
def parseMembers : Nat → List Char → Option (List (String × Json) × List Char)
  | 0, _ => none
  | fuel + 1, cs =>
      match skipWs cs with
      | [] => none
      | c :: cs1 =>
          if c == dq then
            match parseStrBody cs1 with
            | none => none
            | some (k, rest) =>
                match skipWs rest with
                | [] => none
                | c2 :: cs2 =>
                    if c2 == ':' then
                      match parseVal fuel cs2 with
                      | none => none
                      | some (v, rest2) =>
                          match skipWs rest2 with
                          | [] => none
                          | c3 :: cs3 =>
                              if c3 == ',' then
                                match parseMembers fuel cs3 with
                                | some (ms, rest3) => some ((String.mk k, v) :: ms, rest3)
                                | none => none
                              else if c3 == cbr then some ([(String.mk k, v)], cs3)
                              else none
                    else none
          else none

end

/-- `JSON.parse`: parse one value and require the remainder to be whitespace;
`none` models a thrown SyntaxError. -/
def jsonParse (s : String) : Option Json :=
  match parseVal (s.length + 1) s.data with
  | some (v, rest) => if skipWs rest == [] then some v else none
  | none => none

/-- Wrap a string in double quotes. -/
def quoteStr (s : String) : String := String.mk (dq :: s.data ++ [dq])

def stringifyFields : List (String × String) → String
  | [] => ""
  | (k, v) :: rest => "," ++ quoteStr k ++ ":" ++ quoteStr v ++ stringifyFields rest

/-- `JSON.stringify` of a principal record as the login path persists it. -/
def stringifyUser (u : UserRec) : String :=
  String.mk [obr] ++ quoteStr "id" ++ ":" ++ toString u.id ++ stringifyFields u.fields
    ++ String.mk [cbr]

/-- What the mount-time restore effect does, as observed from outside. -/
inductive RestoreOutcome where
  | unauth
  | adopt (principal : Json) (tok : String)
  | crash (msg : String)

/-- The mount effect (lines 112-120): read both slots; when both are truthy,
`setUser(JSON.parse(storedUser)); setToken(storedToken)` — the parse is not
guarded, so a malformed user slot throws out of the effect (`crash`); when
either slot is falsy nothing is set (`unauth`). -/
def restore (sto : Storage) : RestoreOutcome :=
  if truthy sto.userSlot && truthy sto.tokenSlot then
    match sto.userSlot, sto.tokenSlot with
    | some su, some tk =>
        match jsonParse su with
        | some j => .adopt j tk
        | none => .crash "SyntaxError: JSON.parse"
    | _, _ => .unauth
  else .unauth

def jlookup : List (String × Json) → String → Option Json
  | [], _ => none
  | (k, v) :: rest, key => if k == key then some v else jlookup rest key

/-- The principal `setUser` receives from `JSON.parse(storedUser)`, adopted
as-is: parsed JSON `null` is a null principal (`none`); any other JSON value
is a non-null JavaScript value.  An object is read back into the typed mirror
record (numeric `id`, string profile fields — the shape login persists);
a non-null non-object is a degenerate but still non-null principal, carrying
no usable id or fields. -/
def principalOfJson : Json → Option UserRec
  | .jnull => none
  | .jobj ms =>
      some
        { id := (match jlookup ms "id" with | some (.jnum n) => n | _ => 0),
          fields := ms.foldr
            (fun kv acc =>
              match kv with
              | (k, .jstr v) => if k == "id" then acc else (k, v) :: acc
              | _ => acc) [] }
  | _ => some ⟨0, []⟩

/-- The login response body on success. -/
structure LoginBody where
  user : UserRec
  access_token : String
  force_password_change : Bool
  deriving DecidableEq

/-- What `login` returns to its caller. -/
structure LoginResult where
  success : Bool
  error : Option String
  forcePasswordChange : Option Bool
  deriving DecidableEq

/-- `login` (lines 123-144): on success set principal and token and persist
both slots; on a non-ok response return `{success:false, error: detail ||
"Login failed"}`; a thrown fetch gives the generic "Login error". -/
def login (st : Store) (remote : Fetch LoginBody) : Store × LoginResult :=
  match remote with
  | .resp r =>
      if r.ok then
        ({ st with
            user := some r.body.user
            token := some r.body.access_token
            storage := ⟨some (stringifyUser r.body.user), some r.body.access_token⟩ },
          ⟨true, none, some r.body.force_password_change⟩)
      else (st, ⟨false, some (r.detail.getD "Login failed"), none⟩)
  | .netErr _ => (st, ⟨false, some "Login error", none⟩)

/-- `logout` (lines 147-158): clear credential, both mirrors and both slots. -/
def logout (_st : Store) : Store :=
  { user := none, token := none, users := [], sessions := [], storage := ⟨none, none⟩ }

/-- `fetchInitialData` (lines 24-41): with a truthy token and two ok list
responses, replace both mirrors; any failure leaves the state unchanged. -/
def fetchInitialData (st : Store) (usersRes : Fetch (List UserRec))
    (sessionsRes : Fetch (List SessionRec)) : Store :=
  if truthy st.token then
    match usersRes, sessionsRes with
    | .resp ru, .resp rs =>
        if ru.ok && rs.ok then { st with users := ru.body, sessions := rs.body }
        else st
    | _, _ => st
  else st

/-- One observable event in the store's single-threaded life: the mount-time
restore, a login attempt, logout, the bulk mirror load, one parsed WebSocket
envelope, or one Command Gateway call (with its remote outcome). -/
inductive Event where
  | restoreEv
  | loginEv (remote : Fetch LoginBody)
  | logoutEv
  | bulkLoadEv (usersRes : Fetch (List UserRec)) (sessionsRes : Fetch (List SessionRec))
  | wsEv (msg : WsMessage)
  | createUserEv (userData : List (String × String)) (remote : Fetch UserRec)
  | updateUserEv (id : Int) (updates : List (String × String)) (remote : Fetch UserRec)
  | deleteUserEv (id : Int) (remote : Fetch Unit)
  | createSessionEv (sessionData : List (String × String)) (remote : Fetch SessionRec)
  | updateSessionEv (id : Int) (updates : List (String × String)) (remote : Fetch SessionRec)
  | deleteSessionEv (id : Int) (remote : Fetch Unit)

/-- The six Command Gateway events. -/
def isCommandEvent : Event → Bool
  | .createUserEv _ _ => true
  | .updateUserEv _ _ _ => true
  | .deleteUserEv _ _ => true
  | .createSessionEv _ _ => true
  | .updateSessionEv _ _ _ => true
  | .deleteSessionEv _ _ => true
  | _ => false

/-- State effect of one event.  The six command functions contain no call to
`setUser`/`setToken`/`setUsers`/`setSessions` and touch no storage slot, so a
command event leaves the store exactly as it was (their return values are
given by `createUser` etc. above). -/
def step (st : Store) (e : Event) : Store :=
  match e with
  | .restoreEv =>
      match restore st.storage with
      | .adopt j tk => { st with user := principalOfJson j, token := some tk }
      | _ => st
  | .loginEv remote => (login st remote).1
  | .logoutEv => logout st
  | .bulkLoadEv ur sr => fetchInitialData st ur sr
  | .wsEv msg => handleWsMessage st msg
  | .createUserEv _ _ => st
  | .updateUserEv _ _ _ => st
  | .deleteUserEv _ _ => st
  | .createSessionEv _ _ => st
  | .updateSessionEv _ _ _ => st
  | .deleteSessionEv _ _ => st

/-- Process start: no credential, empty mirrors, whatever durable storage
the browser profile holds. -/
def initStore (sto : Storage) : Store := ⟨none, none, [], [], sto⟩

/-- Run the store from process start through a sequence of events. -/
def run (sto : Storage) (evs : List Event) : Store := evs.foldl step (initStore sto)

/-! ### Concrete example values used by counterexamples and witnesses -/

def exUser5 : UserRec := ⟨5, [("username", "eve"), ("role", "admin")]⟩

def exUser5New : UserRec := ⟨5, [("username", "eva")]⟩

def exUser7 : UserRec := ⟨7, [("username", "bob")]⟩

def exSession1 : SessionRec := ⟨1, "scheduled", "T1", [("title", "Intro")]⟩

def exSession2 : SessionRec := ⟨2, "scheduled", "T3", [("title", "Advanced")]⟩

/-- An authenticated store: principal id 5, two mirrored users, one mirrored
session, both localStorage slots populated. -/
def exStore : Store :=
  ⟨some exUser5, some "tok", [exUser5, exUser7], [exSession1],
    ⟨some (stringifyUser exUser5), some "tok"⟩⟩

/-! ### Helper lemmas on the mirror list operations -/

lemma map_eq_self {α : Type} (l : List α) (f : α → α) (h : ∀ a ∈ l, f a = a) :
    l.map f = l := by
  induction l with
  | nil => rfl
  | cons a t ih =>
      simp only [List.map_cons, h a (List.mem_cons_self a t),
        ih fun b hb => h b (List.mem_cons_of_mem a hb)]

lemma filter_eq_self_of_all {α : Type} (l : List α) (p : α → Bool) (h : ∀ a ∈ l, p a = true) :
    l.filter p = l := by
  induction l with
  | nil => rfl
  | cons a t ih =>
      simp only [List.filter_cons, h a (List.mem_cons_self a t), if_true]
      rw [ih fun b hb => h b (List.mem_cons_of_mem a hb)]

/-- Replacing every entry whose id matches by the payload moves the payload to
the position of the first match. -/
lemma find?_map_replace (l : List UserRec) (uid : Int) (u : UserRec) (hu : u.id = uid)
    (x : UserRec) (h : l.find? (fun y => y.id == uid) = some x) :
    (l.map fun y : UserRec => if y.id == uid then u else y).find? (fun y => y.id == uid)
      = some u := by
  induction l with
  | nil => simp at h
  | cons a t ih =>
      rw [List.map_cons]
      by_cases ha : a.id = uid
      · have hb : (a.id == uid) = true := beq_iff_eq.mpr ha
        simp [List.find?_cons, hb, beq_iff_eq.mpr hu]
      · have hb : (a.id == uid) = false := beq_eq_false_iff_ne.mpr ha
        simp only [List.find?_cons, hb] at h
        simp only [List.find?_cons, hb, Bool.false_eq_true, if_false]
        exact ih h

/-- Patching status/updated_at on every matching session entry patches the
first match in place, keeping its id and other fields. -/
lemma find?_map_patch (l : List SessionRec) (sid : Int) (stat ua : String) (s : SessionRec)
    (h : l.find? (fun t => t.id == sid) = some s) :
    (l.map fun t : SessionRec =>
        if t.id == sid then { t with status := stat, updated_at := ua } else t).find?
      (fun t => t.id == sid) = some ⟨s.id, stat, ua, s.fields⟩ := by
  induction l with
  | nil => simp at h
  | cons a t ih =>
      rw [List.map_cons]
      by_cases ha : a.id = sid
      · have hb : (a.id == sid) = true := beq_iff_eq.mpr ha
        simp only [List.find?_cons, hb] at h
        have hax : a = s := Option.some_inj.mp h
        subst hax
        simp [List.find?_cons, hb]
      · have hb : (a.id == sid) = false := beq_eq_false_iff_ne.mpr ha
        simp only [List.find?_cons, hb] at h
        simp only [List.find?_cons, hb, Bool.false_eq_true, if_false]
        exact ih h

/-- The `.users` field after a `user_deleted` envelope, in every credential
branch, is the filtered mirror. -/
lemma user_deleted_users_eq (st : Store) (uid : Int) :
    (handleWsMessage st (.user_deleted uid)).users
      = st.users.filter fun x : UserRec => x.id != uid := by
  cases hcu : st.user <;> simp only [handleWsMessage, hcu] <;> try rfl
  split <;> rfl

/-! ### C1 -/

/-- C1 counterexample: authenticated as user id 5 with a nonempty session
mirror, the `user_deleted` envelope targeting id 5 clears the credential but
leaves the session mirror exactly as it was — it is not cleared, contradicting
the claim. -/
theorem user_deleted_sessions_not_cleared_cex :
    exStore.user = some exUser5 ∧ exUser5.id = 5 ∧ exStore.sessions = [exSession1] ∧
    (handleWsMessage exStore (.user_deleted 5)).user = none ∧
    (handleWsMessage exStore (.user_deleted 5)).token = none ∧
    (handleWsMessage exStore (.user_deleted 5)).sessions = [exSession1] ∧
    (handleWsMessage exStore (.user_deleted 5)).sessions ≠ [] := by
  decide

/-- C1 (amended): a `user_deleted` envelope whose target identifier equals the
current principal's identifier clears the credential (principal and token
become null), empties both durable-storage slots and removes the identifier
from the user mirror, but leaves the session mirror unchanged (it is not
cleared); a `user_deleted` for any other identifier leaves the credential
untouched. -/
theorem user_deleted_self_logout (st : Store) (p : UserRec) (h : st.user = some p) :
    (handleWsMessage st (.user_deleted p.id)).user = none ∧
    (handleWsMessage st (.user_deleted p.id)).token = none ∧
    (handleWsMessage st (.user_deleted p.id)).storage = ⟨none, none⟩ ∧
    (∀ x ∈ (handleWsMessage st (.user_deleted p.id)).users, x.id ≠ p.id) ∧
    (handleWsMessage st (.user_deleted p.id)).sessions = st.sessions ∧
    ∀ q : Int, q ≠ p.id →
      (handleWsMessage st (.user_deleted q)).user = st.user ∧
      (handleWsMessage st (.user_deleted q)).token = st.token := by
  refine ⟨?_, ?_, ?_, ?_, ?_, ?_⟩
  · simp [handleWsMessage, h]
  · simp [handleWsMessage, h]
  · simp [handleWsMessage, h]
  · intro x hx
    rw [user_deleted_users_eq] at hx
    have := List.of_mem_filter hx
    simpa using this
  · simp [handleWsMessage, h]
  · intro q hq
    have hb : (p.id == q) = false := beq_eq_false_iff_ne.mpr (Ne.symm hq)
    constructor <;> simp [handleWsMessage, h, hb]

/-- Witness for `user_deleted_self_logout` at the concrete store `exStore`. -/
theorem user_deleted_self_logout_witness :
    exStore.user = some exUser5 ∧
    ((handleWsMessage exStore (.user_deleted exUser5.id)).user = none ∧
     (handleWsMessage exStore (.user_deleted exUser5.id)).token = none ∧
     (handleWsMessage exStore (.user_deleted exUser5.id)).storage = ⟨none, none⟩ ∧
     (∀ x ∈ (handleWsMessage exStore (.user_deleted exUser5.id)).users, x.id ≠ exUser5.id) ∧
     (handleWsMessage exStore (.user_deleted exUser5.id)).sessions = exStore.sessions ∧
     ∀ q : Int, q ≠ exUser5.id →
       (handleWsMessage exStore (.user_deleted q)).user = exStore.user ∧
       (handleWsMessage exStore (.user_deleted q)).token = exStore.token) :=
  ⟨rfl, user_deleted_self_logout exStore exUser5 rfl⟩

/-! ### C2 -/

/-- C2: a `user_updated` envelope replaces the matching user mirror entry
wholesale with the payload (the entry found afterwards is the payload record
itself, so fields of the old entry absent from the payload are gone), whereas
a `session_updated` envelope overwrites only `status` and `updated_at` of the
matching session entry and retains its id and every other field. -/
theorem update_replace_vs_patch (st : Store) (uid : Int) (u x : UserRec)
    (hu : u.id = uid) (hx : st.users.find? (fun y => y.id == uid) = some x)
    (sid : Int) (stat ua : String) (s : SessionRec)
    (hs : st.sessions.find? (fun t => t.id == sid) = some s) :
    (handleWsMessage st (.user_updated uid u)).users.find? (fun y => y.id == uid) = some u ∧
    (handleWsMessage st (.session_updated sid stat ua)).sessions.find? (fun t => t.id == sid)
      = some ⟨s.id, stat, ua, s.fields⟩ := by
  constructor
  · have hrep := find?_map_replace st.users uid u hu x hx
    cases hcu : st.user <;> simp only [handleWsMessage, hcu]
    · exact hrep
    · split <;> exact hrep
  · simpa only [handleWsMessage] using find?_map_patch st.sessions sid stat ua s hs

/-- Witness for `update_replace_vs_patch`: replace user 5 (dropping its old
`role` field) and patch session 1 to `completed`/`T2` keeping its title. -/
theorem update_replace_vs_patch_witness :
    exUser5New.id = 5 ∧
    exStore.users.find? (fun y => y.id == 5) = some exUser5 ∧
    exStore.sessions.find? (fun t => t.id == 1) = some exSession1 ∧
    ((handleWsMessage exStore (.user_updated 5 exUser5New)).users.find?
        (fun y => y.id == 5) = some exUser5New ∧
     (handleWsMessage exStore (.session_updated 1 "completed" "T2")).sessions.find?
        (fun t => t.id == 1) = some ⟨exSession1.id, "completed", "T2", exSession1.fields⟩) :=
  ⟨rfl, by decide, by decide,
    update_replace_vs_patch exStore 5 exUser5New exUser5 rfl (by decide)
      1 "completed" "T2" exSession1 (by decide)⟩

/-! ### C3 -/

/-- C3 counterexample: a `user_created` whose payload id 5 is already mirrored
leaves TWO entries with id 5 (not the claimed exactly one), and a
`user_updated` for the absent id 7 leaves the collection without any entry for
id 7 (the payload is not inserted) — neither direction is an upsert. -/
theorem upsert_cex :
    (handleWsMessage ⟨none, none, [exUser5], [], ⟨none, none⟩⟩
        (.user_created exUser5)).users = [exUser5, exUser5] ∧
    ((handleWsMessage ⟨none, none, [exUser5], [], ⟨none, none⟩⟩
        (.user_created exUser5)).users.countP fun x => x.id == 5) = 2 ∧
    (handleWsMessage ⟨none, none, [], [], ⟨none, none⟩⟩
        (.user_updated 7 exUser7)).users = [] := by
  decide

/-- C3 (amended): `applyNotification` does not upsert: a `created` envelope
appends its payload unconditionally (an already-present identifier ends up
duplicated, raising its entry count by one), and an `updated` envelope whose
identifier is absent leaves the collection unchanged (the payload is not
inserted); both for the user and the session mirror. -/
theorem created_appends_updated_noop (st : Store) (u : UserRec) (uid : Int) (u2 : UserRec)
    (habs : ∀ x ∈ st.users, x.id ≠ uid)
    (s : SessionRec) (sid : Int) (stat ua : String)
    (hsabs : ∀ t ∈ st.sessions, t.id ≠ sid) :
    (handleWsMessage st (.user_created u)).users = st.users ++ [u] ∧
    ((handleWsMessage st (.user_created u)).users.countP fun x => x.id == u.id)
      = (st.users.countP fun x => x.id == u.id) + 1 ∧
    (handleWsMessage st (.user_updated uid u2)).users = st.users ∧
    (handleWsMessage st (.session_created s)).sessions = st.sessions ++ [s] ∧
    (handleWsMessage st (.session_updated sid stat ua)).sessions = st.sessions := by
  refine ⟨rfl, ?_, ?_, rfl, ?_⟩
  · simp [handleWsMessage, List.countP_append, List.countP_cons]
  · have hmap : (st.users.map fun x : UserRec => if x.id == uid then u2 else x) = st.users := by
      apply map_eq_self
      intro a ha
      rw [if_neg (by simp [beq_eq_false_iff_ne.mpr (habs a ha)])]
    cases hcu : st.user <;> simp only [handleWsMessage, hcu]
    · exact hmap
    · split <;> exact hmap
  · simp only [handleWsMessage]
    apply map_eq_self
    intro a ha
    rw [if_neg (by simp [beq_eq_false_iff_ne.mpr (hsabs a ha)])]

/-- Witness for `created_appends_updated_noop` on `exStore` (ids 9/9 absent). -/
theorem created_appends_updated_noop_witness :
    (∀ x ∈ exStore.users, x.id ≠ 9) ∧ (∀ t ∈ exStore.sessions, t.id ≠ 9) ∧
    ((handleWsMessage exStore (.user_created exUser7)).users = exStore.users ++ [exUser7] ∧
     ((handleWsMessage exStore (.user_created exUser7)).users.countP
        fun x => x.id == exUser7.id) = (exStore.users.countP fun x => x.id == exUser7.id) + 1 ∧
     (handleWsMessage exStore (.user_updated 9 exUser7)).users = exStore.users ∧
     (handleWsMessage exStore (.session_created exSession2)).sessions
        = exStore.sessions ++ [exSession2] ∧
     (handleWsMessage exStore (.session_updated 9 "completed" "T2")).sessions
        = exStore.sessions) :=
  ⟨by decide, by decide,
    created_appends_updated_noop exStore exUser7 9 exUser7 (by decide)
      exSession2 9 "completed" "T2" (by decide)⟩

/-! ### C4 -/

def exFailA : Fetch UserRec := .resp ⟨false, some "A", exUser5⟩

def exFailB : Fetch UserRec := .resp ⟨false, some "B", exUser5⟩

/-- C4 counterexample: two remote rejections carrying different `detail`
reasons ("A" and "B") both make `createUser` return the same bare `null`, so
no reading of the returned failure value can recover the reason — the failure
result does not carry it. -/
theorem failure_result_carries_no_reason_cex :
    (createUser (some "tok") [] exFailA).result = none ∧
    (createUser (some "tok") [] exFailB).result = none ∧
    ¬ ∃ readReason : Option UserRec → String,
        readReason (createUser (some "tok") [] exFailA).result = "A" ∧
        readReason (createUser (some "tok") [] exFailB).result = "B" := by
  refine ⟨rfl, rfl, ?_⟩
  rintro ⟨f, h1, h2⟩
  rw [show (createUser (some "tok") [] exFailA).result = none from rfl] at h1
  rw [show (createUser (some "tok") [] exFailB).result = none from rfl] at h2
  exact absurd (h1.symm.trans h2) (by decide)

/-- C4 (amended): with a credential present, a non-success response makes each
Command Gateway operation return its generic failure value (`null` for
create/update, `false` for delete) — the human-readable reason (the body's
`detail` field, or a generic message when absent) is only logged, not carried
by the returned result; a network failure likewise yields the failure value
with the thrown message logged.  All expected failure modes are absorbed at
the operation boundary (each operation is a total function into
`OpOutcome`). -/
theorem failure_reason_logged_not_returned (tok : Option String) (htok : truthy tok = true)
    (id : Int) (payload updates : List (String × String))
    (ru : Response UserRec) (hru : ru.ok = false)
    (rs : Response SessionRec) (hrs : rs.ok = false)
    (rd : Response Unit) (hrd : rd.ok = false) (m : String) :
    (createUser tok payload (.resp ru)).result = none ∧
    (createUser tok payload (.resp ru)).logged = some (ru.detail.getD "Failed to create user") ∧
    (updateUserById tok id updates (.resp ru)).result = none ∧
    (updateUserById tok id updates (.resp ru)).logged
      = some (ru.detail.getD "Failed to update user") ∧
    (deleteUser tok id (.resp rd)).result = false ∧
    (deleteUser tok id (.resp rd)).logged = some (rd.detail.getD "Failed to delete user") ∧
    (createSession tok payload (.resp rs)).result = none ∧
    (createSession tok payload (.resp rs)).logged
      = some (rs.detail.getD "Failed to create session") ∧
    (updateSession tok id updates (.resp rs)).result = none ∧
    (updateSession tok id updates (.resp rs)).logged
      = some (rs.detail.getD "Failed to update session") ∧
    (deleteSession tok id (.resp rd)).result = false ∧
    (deleteSession tok id (.resp rd)).logged = some (rd.detail.getD "Failed to delete session") ∧
    (createUser tok payload (.netErr m)).result = none ∧
    (createUser tok payload (.netErr m)).logged = some m ∧
    (deleteSession tok id (.netErr m)).result = false ∧
    (deleteSession tok id (.netErr m)).logged = some m := by
  refine ⟨?_, ?_, ?_, ?_, ?_, ?_, ?_, ?_, ?_, ?_, ?_, ?_, ?_, ?_, ?_, ?_⟩ <;>
    simp [createUser, updateUserById, deleteUser, createSession, updateSession,
      deleteSession, htok, hru, hrs, hrd]

/-- Witness for `failure_reason_logged_not_returned` at concrete inputs. -/
theorem failure_reason_logged_not_returned_witness :
    truthy (some "tok") = true ∧
    ((createUser (some "tok") [] (.resp ⟨false, some "A", exUser5⟩)).result = none ∧
     (createUser (some "tok") [] (.resp ⟨false, some "A", exUser5⟩)).logged
       = some ((some "A").getD "Failed to create user") ∧
     (updateUserById (some "tok") 5 [] (.resp ⟨false, some "A", exUser5⟩)).result = none ∧
     (updateUserById (some "tok") 5 [] (.resp ⟨false, some "A", exUser5⟩)).logged
       = some ((some "A").getD "Failed to update user") ∧
     (deleteUser (some "tok") 5 (.resp ⟨false, none, ()⟩)).result = false ∧
     (deleteUser (some "tok") 5 (.resp ⟨false, none, ()⟩)).logged
       = some ((none : Option String).getD "Failed to delete user") ∧
     (createSession (some "tok") [] (.resp ⟨false, none, exSession1⟩)).result = none ∧
     (createSession (some "tok") [] (.resp ⟨false, none, exSession1⟩)).logged
       = some ((none : Option String).getD "Failed to create session") ∧
     (updateSession (some "tok") 5 [] (.resp ⟨false, none, exSession1⟩)).result = none ∧
     (updateSession (some "tok") 5 [] (.resp ⟨false, none, exSession1⟩)).logged
       = some ((none : Option String).getD "Failed to update session") ∧
     (deleteSession (some "tok") 5 (.resp ⟨false, none, ()⟩)).result = false ∧
     (deleteSession (some "tok") 5 (.resp ⟨false, none, ()⟩)).logged
       = some ((none : Option String).getD "Failed to delete session") ∧
     (createUser (some "tok") [] (.netErr "TypeError: Failed to fetch")).result = none ∧
     (createUser (some "tok") [] (.netErr "TypeError: Failed to fetch")).logged
       = some "TypeError: Failed to fetch" ∧
     (deleteSession (some "tok") 5 (.netErr "TypeError: Failed to fetch")).result = false ∧
     (deleteSession (some "tok") 5 (.netErr "TypeError: Failed to fetch")).logged
       = some "TypeError: Failed to fetch") :=
  ⟨by decide, failure_reason_logged_not_returned (some "tok") (by decide) 5 [] []
    ⟨false, some "A", exUser5⟩ rfl ⟨false, none, exSession1⟩ rfl ⟨false, none, ()⟩ rfl
    "TypeError: Failed to fetch"⟩

/-! ### C5 -/

/-- C5: invoked while no credential is present, each of the six Command
Gateway operations returns its failure value (`null` for create/update,
`false` for delete) with no network request issued, whatever the remote would
have answered. -/
theorem unauthenticated_returns_immediately (payload updates : List (String × String))
    (id : Int) (ru : Fetch UserRec) (rs : Fetch SessionRec) (rd : Fetch Unit) :
    createUser none payload ru = ⟨none, false, none⟩ ∧
    updateUserById none id updates ru = ⟨none, false, none⟩ ∧
    deleteUser none id rd = ⟨false, false, none⟩ ∧
    createSession none payload rs = ⟨none, false, none⟩ ∧
    updateSession none id updates rs = ⟨none, false, none⟩ ∧
    deleteSession none id rd = ⟨false, false, none⟩ :=
  ⟨rfl, rfl, rfl, rfl, rfl, rfl⟩

/-! ### C6 -/

/-- C6: a Command Gateway operation that succeeds remotely returns its
declared success value (`some` record for create/update, `true` for delete)
while the store — in particular both mirrors — is left unchanged by the
command event; a freshly created session id is absent from the mirror right
after the command, and the mirror contains the record only once the
`session_created` echo envelope is applied. -/
theorem command_success_no_optimistic_update (st : Store) (tok : Option String)
    (htok : truthy tok = true) (sessionData : List (String × String))
    (r : Response SessionRec) (hok : r.ok = true)
    (hfresh : ∀ t ∈ st.sessions, t.id ≠ r.body.id) :
    (createSession tok sessionData (.resp r)).result = some r.body ∧
    (∀ e : Event, isCommandEvent e = true → step st e = st) ∧
    (∀ t ∈ (step st (.createSessionEv sessionData (.resp r))).sessions, t.id ≠ r.body.id) ∧
    r.body ∈ (handleWsMessage st (.session_created r.body)).sessions ∧
    (∀ (pd : List (String × String)) (i : Int) (ru : Response UserRec), ru.ok = true →
      (createUser tok pd (.resp ru)).result = some ru.body ∧
      (updateUserById tok i pd (.resp ru)).result = some ru.body) ∧
    (∀ (pd : List (String × String)) (i : Int) (rs2 : Response SessionRec), rs2.ok = true →
      (updateSession tok i pd (.resp rs2)).result = some rs2.body) ∧
    (∀ (i : Int) (rd : Response Unit), rd.ok = true →
      (deleteUser tok i (.resp rd)).result = true ∧
      (deleteSession tok i (.resp rd)).result = true) := by
  refine ⟨?_, ?_, ?_, ?_, ?_, ?_, ?_⟩
  · simp [createSession, htok, hok]
  · intro e he
    cases e <;> first | rfl | simp [isCommandEvent] at he
  · intro t ht
    exact hfresh t (by simpa [step] using ht)
  · simp [handleWsMessage]
  · intro pd i ru hro
    constructor <;> simp [createUser, updateUserById, htok, hro]
  · intro pd i rs2 hro
    simp [updateSession, htok, hro]
  · intro i rd hro
    constructor <;> simp [deleteUser, deleteSession, htok, hro]

/-- Witness for `command_success_no_optimistic_update`: create session 2
against `exStore` (which mirrors only session 1). -/
theorem command_success_no_optimistic_update_witness :
    truthy (some "tok") = true ∧
    (⟨true, none, exSession2⟩ : Response SessionRec).ok = true ∧
    (∀ t ∈ exStore.sessions, t.id ≠ (⟨true, none, exSession2⟩ : Response SessionRec).body.id) ∧
    ((createSession (some "tok") [] (.resp ⟨true, none, exSession2⟩)).result = some exSession2 ∧
     (∀ e : Event, isCommandEvent e = true → step exStore e = exStore) ∧
     (∀ t ∈ (step exStore (.createSessionEv [] (.resp ⟨true, none, exSession2⟩))).sessions,
        t.id ≠ (⟨true, none, exSession2⟩ : Response SessionRec).body.id) ∧
     (⟨true, none, exSession2⟩ : Response SessionRec).body
        ∈ (handleWsMessage exStore (.session_created exSession2)).sessions ∧
     (∀ (pd : List (String × String)) (i : Int) (ru : Response UserRec), ru.ok = true →
       (createUser (some "tok") pd (.resp ru)).result = some ru.body ∧
       (updateUserById (some "tok") i pd (.resp ru)).result = some ru.body) ∧
     (∀ (pd : List (String × String)) (i : Int) (rs2 : Response SessionRec), rs2.ok = true →
       (updateSession (some "tok") i pd (.resp rs2)).result = some rs2.body) ∧
     (∀ (i : Int) (rd : Response Unit), rd.ok = true →
       (deleteUser (some "tok") i (.resp rd)).result = true ∧
       (deleteSession (some "tok") i (.resp rd)).result = true)) :=
  ⟨by decide, rfl, by decide,
    command_success_no_optimistic_update exStore (some "tok") (by decide) []
      ⟨true, none, exSession2⟩ rfl (by decide)⟩

/-! ### C7 -/

def malformedStorage : Storage := ⟨some "not json", some "tok"⟩

/-- C7 counterexample: with a token present and malformed serialized data in
the user slot, `restore` does not treat the data as absent — the unguarded
`JSON.parse` throws out of the mount effect (`crash`), so `restore` can
fail. -/
theorem restore_crashes_on_malformed_cex :
    restore malformedStorage = .crash "SyntaxError: JSON.parse" ∧
    restore malformedStorage ≠ .unauth := by
  have hc : restore malformedStorage = .crash "SyntaxError: JSON.parse" := rfl
  exact ⟨hc, fun h => RestoreOutcome.noConfusion (hc.symm.trans h)⟩

/-- C7 (amended): when both durable slots are non-empty and the user slot is
valid JSON, `restore` adopts the stored (principal, token) pair; when either
slot is empty or absent it leaves the store unauthenticated without error; but
when the token slot is non-empty and the user slot holds malformed serialized
data, `restore` throws a parse error instead of treating the data as
absent. -/
theorem restore_total_behavior (sto : Storage) (su tk : String)
    (hs : sto.userSlot = some su) (ht : sto.tokenSlot = some tk)
    (hsu : su ≠ "") (htk : tk ≠ "") :
    (∀ j, jsonParse su = some j → restore sto = .adopt j tk) ∧
    (jsonParse su = none → restore sto = .crash "SyntaxError: JSON.parse") ∧
    (∀ sto2 : Storage, truthy sto2.userSlot = false ∨ truthy sto2.tokenSlot = false →
      restore sto2 = .unauth) := by
  refine ⟨?_, ?_, ?_⟩
  · intro j hj
    simp [restore, hs, ht, truthy, hsu, htk, hj]
  · intro hj
    simp [restore, hs, ht, truthy, hsu, htk, hj]
  · intro sto2 h2
    rcases h2 with h2 | h2 <;> simp [restore, h2]

/-- A storage pair as the login path would persist it for `exUser5`. -/
def wellFormedStorage : Storage := ⟨some (stringifyUser exUser5), some "tok"⟩

/-- Witness for `restore_total_behavior`: the persisted form of `exUser5` is
parsed back and adopted together with the stored token. -/
theorem restore_total_behavior_witness :
    wellFormedStorage.userSlot = some (stringifyUser exUser5) ∧
    wellFormedStorage.tokenSlot = some "tok" ∧
    stringifyUser exUser5 ≠ "" ∧ ("tok" : String) ≠ "" ∧
    ((∀ j, jsonParse (stringifyUser exUser5) = some j →
        restore wellFormedStorage = .adopt j "tok") ∧
     (jsonParse (stringifyUser exUser5) = none →
        restore wellFormedStorage = .crash "SyntaxError: JSON.parse") ∧
     (∀ sto2 : Storage, truthy sto2.userSlot = false ∨ truthy sto2.tokenSlot = false →
        restore sto2 = .unauth)) ∧
    restore wellFormedStorage
      = .adopt (.jobj [("id", .jnum 5), ("username", .jstr "eve"), ("role", .jstr "admin")])
          "tok" :=
  ⟨rfl, rfl, by decide, by decide,
    restore_total_behavior wellFormedStorage (stringifyUser exUser5) "tok" rfl rfl
      (by decide) (by decide),
    (restore_total_behavior wellFormedStorage (stringifyUser exUser5) "tok" rfl rfl
      (by decide) (by decide)).1 _ rfl⟩

/-! ### C8 -/

lemma skipWs_obr (rest : List Char) : skipWs (obr :: rest) = obr :: rest := by
  simp [skipWs, show isWsChar obr = false from by decide]

/-- A stringified principal starts with the open brace. -/
lemma stringifyUser_data (u : UserRec) :
    ∃ rest, (stringifyUser u).data = obr :: rest := by
  refine ⟨(quoteStr "id" ++ ":" ++ toString u.id ++ stringifyFields u.fields
      ++ String.mk [cbr]).data, ?_⟩
  simp [stringifyUser, String.data_append]

/-- When the first significant character is the open brace, the parser can
only fail or produce an object — never the JSON literal `null`. -/
lemma parseVal_at_obr (n : Nat) (cs cs1 : List Char) (hh : skipWs cs = obr :: cs1) :
    parseVal n cs = none ∨ ∃ ms rest, parseVal n cs = some (Json.jobj ms, rest) := by
  cases n with
  | zero => exact Or.inl rfl
  | succ m =>
      cases hs1 : skipWs cs1 with
      | nil =>
          exact Or.inl (by
            simp [parseVal, hh, hs1,
              show (obr == 'n') = false from by decide,
              show (obr == 't') = false from by decide,
              show (obr == 'f') = false from by decide,
              show (obr == dq) = false from by decide,
              show (obr == '[') = false from by decide,
              show (obr == obr) = true from by decide])
      | cons c2 cs2 =>
          by_cases hc2 : (c2 == cbr) = true
          · exact Or.inr ⟨[], cs2, by
              simp [parseVal, hh, hs1, hc2,
                show (obr == 'n') = false from by decide,
                show (obr == 't') = false from by decide,
                show (obr == 'f') = false from by decide,
                show (obr == dq) = false from by decide,
                show (obr == '[') = false from by decide,
                show (obr == obr) = true from by decide]⟩
          · cases hm : parseMembers m (c2 :: cs2) with
            | none =>
                exact Or.inl (by
                  simp [parseVal, hh, hs1, hc2, hm,
                    show (obr == 'n') = false from by decide,
                    show (obr == 't') = false from by decide,
                    show (obr == 'f') = false from by decide,
                    show (obr == dq) = false from by decide,
                    show (obr == '[') = false from by decide,
                    show (obr == obr) = true from by decide])
            | some pr =>
                exact Or.inr ⟨pr.1, pr.2, by
                  simp [parseVal, hh, hs1, hc2, hm,
                    show (obr == 'n') = false from by decide,
                    show (obr == 't') = false from by decide,
                    show (obr == 'f') = false from by decide,
                    show (obr == dq) = false from by decide,
                    show (obr == '[') = false from by decide,
                    show (obr == obr) = true from by decide]⟩

/-- What login persists never deserializes to the JSON literal `null`. -/
lemma jsonParse_stringify_not_null (u : UserRec) :
    jsonParse (stringifyUser u) ≠ some Json.jnull := by
  intro h
  obtain ⟨rest0, hdata⟩ := stringifyUser_data u
  have hsk : skipWs (stringifyUser u).data = obr :: rest0 := by
    rw [hdata]; exact skipWs_obr rest0
  rcases parseVal_at_obr ((stringifyUser u).length + 1) (stringifyUser u).data rest0 hsk
    with hn | ⟨ms, rest, hm⟩
  · simp [jsonParse, hn] at h
  · simp only [jsonParse, hm] at h
    split at h
    · exact Json.noConfusion (Option.some_inj.mp h)
    · exact Option.noConfusion h

/-- The bulk load touches neither credential half nor the storage slots. -/
lemma fetchInitialData_frame (st : Store) (ur : Fetch (List UserRec))
    (sr : Fetch (List SessionRec)) :
    (fetchInitialData st ur sr).user = st.user ∧
    (fetchInitialData st ur sr).token = st.token ∧
    (fetchInitialData st ur sr).storage = st.storage := by
  by_cases htk : truthy st.token = true
  · cases ur with
    | resp ru =>
        cases sr with
        | resp rs =>
            by_cases hoks : (ru.ok && rs.ok) = true <;> simp [fetchInitialData, htk, hoks]
        | netErr m => simp [fetchInitialData, htk]
    | netErr m => cases sr <;> simp [fetchInitialData, htk]
  · simp [fetchInitialData, htk]

/-- If restore adopts, the adopted principal came from parsing the stored
user slot. -/
lemma restore_adopt_inv (sto : Storage) (j : Json) (tk : String)
    (hr : restore sto = .adopt j tk) :
    ∃ su, sto.userSlot = some su ∧ jsonParse su = some j := by
  cases hu : sto.userSlot with
  | none =>
      rw [show restore sto = .unauth from by simp [restore, truthy, hu]] at hr
      exact RestoreOutcome.noConfusion hr
  | some su =>
      cases ht : sto.tokenSlot with
      | none =>
          rw [show restore sto = .unauth from by simp [restore, truthy, hu, ht]] at hr
          exact RestoreOutcome.noConfusion hr
      | some tk2 =>
          by_cases hsu0 : su = ""
          · rw [show restore sto = .unauth from by
                simp [restore, truthy, hu, ht, hsu0]] at hr
            exact RestoreOutcome.noConfusion hr
          · by_cases htk0 : tk2 = ""
            · rw [show restore sto = .unauth from by
                  simp [restore, truthy, hu, ht, htk0]] at hr
              exact RestoreOutcome.noConfusion hr
            · cases hp : jsonParse su with
              | none =>
                  rw [show restore sto = .crash "SyntaxError: JSON.parse" from by
                      simp [restore, truthy, hu, ht, hsu0, htk0, hp]] at hr
                  exact RestoreOutcome.noConfusion hr
              | some j2 =>
                  rw [show restore sto = .adopt j2 tk2 from by
                      simp [restore, truthy, hu, ht, hsu0, htk0, hp]] at hr
                  injection hr with h1 h2
                  exact ⟨su, rfl, by rw [hp, h1]⟩

lemma principalOfJson_isSome (j : Json) (h : j ≠ Json.jnull) :
    (principalOfJson j).isSome = true := by
  cases j with
  | jnull => exact absurd rfl h
  | jbool b => rfl
  | jnum n => rfl
  | jstr s => rfl
  | jarr es => rfl
  | jobj ms => rfl

/-- One step keeps the stored user slot free of serialized JSON null: login
writes a stringified object, logout and the forced logout clear the slot, and
nothing else writes storage. -/
lemma storage_slot_step (st : Store) (e : Event)
    (hst : ∀ su, st.storage.userSlot = some su → jsonParse su ≠ some Json.jnull) :
    ∀ su, (step st e).storage.userSlot = some su → jsonParse su ≠ some Json.jnull := by
  cases e with
  | restoreEv =>
      cases hr : restore st.storage with
      | adopt j tk => simpa [step, hr] using hst
      | unauth => simpa [step, hr] using hst
      | crash m => simpa [step, hr] using hst
  | loginEv remote =>
      cases remote with
      | resp r =>
          by_cases hok : r.ok = true
          · intro su hsu
            have hsu2 : stringifyUser r.body.user = su := by
              simpa [step, login, hok] using hsu
            rw [← hsu2]
            exact jsonParse_stringify_not_null r.body.user
          · simpa [step, login, hok] using hst
      | netErr m => simpa [step, login] using hst
  | logoutEv => intro su hsu; simp [step, logout] at hsu
  | bulkLoadEv ur sr =>
      intro su hsu
      simp only [step] at hsu
      rw [(fetchInitialData_frame st ur sr).2.2] at hsu
      exact hst su hsu
  | wsEv msg =>
      cases msg with
      | user_created u => simpa [step, handleWsMessage] using hst
      | user_updated uid u =>
          cases hcu : st.user with
          | none => simpa [step, handleWsMessage, hcu] using hst
          | some cu =>
              by_cases hid : (cu.id == uid) = true <;>
                simpa [step, handleWsMessage, hcu, hid] using hst
      | user_deleted uid =>
          cases hcu : st.user with
          | none => simpa [step, handleWsMessage, hcu] using hst
          | some cu =>
              by_cases hid : (cu.id == uid) = true
              · intro su hsu; simp [step, handleWsMessage, hcu, hid] at hsu
              · simpa [step, handleWsMessage, hcu, hid] using hst
      | session_created s => simpa [step, handleWsMessage] using hst
      | session_updated sid stat ua => simpa [step, handleWsMessage] using hst
      | session_deleted sid => simpa [step, handleWsMessage] using hst
      | unknown t => simpa [step, handleWsMessage] using hst
  | createUserEv pd remote => simpa [step] using hst
  | updateUserEv i upd remote => simpa [step] using hst
  | deleteUserEv i remote => simpa [step] using hst
  | createSessionEv pd remote => simpa [step] using hst
  | updateSessionEv i upd remote => simpa [step] using hst
  | deleteSessionEv i remote => simpa [step] using hst

/-- One step preserves the principal/token pairing, given that the stored
user slot holds no serialized JSON null (which restore would adopt as a null
principal next to a non-null token). -/
lemma cred_pair_step (st : Store) (e : Event)
    (hst : ∀ su, st.storage.userSlot = some su → jsonParse su ≠ some Json.jnull)
    (h : st.user.isSome = st.token.isSome) :
    (step st e).user.isSome = (step st e).token.isSome := by
  cases e with
  | restoreEv =>
      cases hr : restore st.storage with
      | adopt j tk =>
          obtain ⟨su, hsu, hparse⟩ := restore_adopt_inv st.storage j tk hr
          have hj : j ≠ Json.jnull := fun hnull => hst su hsu (hnull ▸ hparse)
          simp [step, hr, principalOfJson_isSome j hj]
      | unauth => simpa [step, hr] using h
      | crash m => simpa [step, hr] using h
  | loginEv remote =>
      cases remote with
      | resp r =>
          by_cases hok : r.ok = true
          · simp [step, login, hok]
          · simpa [step, login, hok] using h
      | netErr m => simpa [step, login] using h
  | logoutEv => simp [step, logout]
  | bulkLoadEv ur sr =>
      simp only [step]
      rw [(fetchInitialData_frame st ur sr).1, (fetchInitialData_frame st ur sr).2.1]
      exact h
  | wsEv msg =>
      cases msg with
      | user_created u => simpa [step, handleWsMessage] using h
      | user_updated uid u =>
          cases hcu : st.user with
          | none => simpa [step, handleWsMessage, hcu] using h
          | some cu =>
              by_cases hid : (cu.id == uid) = true <;>
                simpa [step, handleWsMessage, hcu, hid] using h
      | user_deleted uid =>
          cases hcu : st.user with
          | none => simpa [step, handleWsMessage, hcu] using h
          | some cu =>
              by_cases hid : (cu.id == uid) = true
              · simp [step, handleWsMessage, hcu, hid]
              · simpa [step, handleWsMessage, hcu, hid] using h
      | session_created s => simpa [step, handleWsMessage] using h
      | session_updated sid stat ua => simpa [step, handleWsMessage] using h
      | session_deleted sid => simpa [step, handleWsMessage] using h
      | unknown t => simpa [step, handleWsMessage] using h
  | createUserEv pd remote => simpa [step] using h
  | updateUserEv i upd remote => simpa [step] using h
  | deleteUserEv i remote => simpa [step] using h
  | createSessionEv pd remote => simpa [step] using h
  | updateSessionEv i upd remote => simpa [step] using h
  | deleteSessionEv i remote => simpa [step] using h

/-- C8 counterexample: with persisted slots user = "null" and token = "tok"
(both truthy strings), the mount-time restore adopts JSON null as the
principal and "tok" as the token, reaching a state whose token is non-null
while the principal is null — the claimed pairing invariant fails. -/
theorem credential_pairing_violated_cex :
    (run ⟨some "null", some "tok"⟩ [.restoreEv]).user = none ∧
    (run ⟨some "null", some "tok"⟩ [.restoreEv]).token = some "tok" ∧
    ¬ ((run ⟨some "null", some "tok"⟩ [.restoreEv]).user.isSome
        ↔ (run ⟨some "null", some "tok"⟩ [.restoreEv]).token.isSome) := by
  refine ⟨rfl, rfl, fun hiff => ?_⟩
  exact absurd (hiff.mpr rfl) (by decide)

/-- C8 (amended): for every start-up storage whose persisted principal slot
does not deserialize to the JSON literal null, after every sequence of
operations (restore, login, logout, bulk load, notifications, commands) the
principal is non-null iff the token is non-null; the sole violation is
restore() adopting a persisted literal-null principal next to a non-empty
token, which pairs a null principal with a non-null token. -/
theorem credential_paired_unless_null_restore (sto : Storage) (evs : List Event)
    (h0 : ∀ su, sto.userSlot = some su → jsonParse su ≠ some Json.jnull) :
    (run sto evs).user.isSome ↔ (run sto evs).token.isSome := by
  suffices hgen : ∀ st : Store,
      (∀ su, st.storage.userSlot = some su → jsonParse su ≠ some Json.jnull) →
      st.user.isSome = st.token.isSome →
      (evs.foldl step st).user.isSome = (evs.foldl step st).token.isSome by
    have := hgen (initStore sto) h0 rfl
    rw [run, this]
  induction evs with
  | nil => intro st _ h; exact h
  | cons e t ih =>
      intro st hst h
      exact ih (step st e) (storage_slot_step st e hst) (cred_pair_step st e hst h)

/-- Witness for `credential_paired_unless_null_restore`: the storage written
by a login for `exUser5` deserializes to an object (never null), and the
pairing holds after restoring from it. -/
theorem credential_paired_unless_null_restore_witness :
    (∀ su, wellFormedStorage.userSlot = some su → jsonParse su ≠ some Json.jnull) ∧
    ((run wellFormedStorage [.restoreEv]).user.isSome
      ↔ (run wellFormedStorage [.restoreEv]).token.isSome) := by
  have h0 : ∀ su, wellFormedStorage.userSlot = some su → jsonParse su ≠ some Json.jnull := by
    intro su hsu hj
    have hsu2 : stringifyUser exUser5 = su := Option.some_inj.mp hsu
    rw [← hsu2] at hj
    exact jsonParse_stringify_not_null exUser5 hj
  exact ⟨h0, credential_paired_unless_null_restore wellFormedStorage [.restoreEv] h0⟩

/-! ### C9 -/

/-- C9: a `deleted` envelope for an identifier absent from the mirror leaves
the collection unchanged (no error — `applyNotification` is a total function),
and applying the same `deleted` envelope twice, for users or sessions, yields
exactly the same store as applying it once. -/
theorem deleted_noop_and_idempotent (st : Store) (uid sid : Int)
    (hu : ∀ x ∈ st.users, x.id ≠ uid) (hs : ∀ t ∈ st.sessions, t.id ≠ sid) :
    (handleWsMessage st (.user_deleted uid)).users = st.users ∧
    (handleWsMessage st (.session_deleted sid)).sessions = st.sessions ∧
    handleWsMessage (handleWsMessage st (.user_deleted uid)) (.user_deleted uid)
      = handleWsMessage st (.user_deleted uid) ∧
    handleWsMessage (handleWsMessage st (.session_deleted sid)) (.session_deleted sid)
      = handleWsMessage st (.session_deleted sid) := by
  have hfu : st.users.filter (fun x : UserRec => x.id != uid) = st.users :=
    filter_eq_self_of_all _ _ fun a ha => by simpa using hu a ha
  have hfs : st.sessions.filter (fun t : SessionRec => t.id != sid) = st.sessions :=
    filter_eq_self_of_all _ _ fun a ha => by simpa using hs a ha
  refine ⟨?_, ?_, ?_, ?_⟩
  · rw [user_deleted_users_eq, hfu]
  · exact hfs
  · cases hcu : st.user with
    | none => simp [handleWsMessage, hcu, List.filter_filter]
    | some cu =>
        by_cases hid : (cu.id == uid) = true
        · simp [handleWsMessage, hcu, hid, List.filter_filter]
        · simp [handleWsMessage, hcu, hid, List.filter_filter]
  · simp [handleWsMessage, List.filter_filter]

/-- Witness for `deleted_noop_and_idempotent`: ids 9/9 are absent from
`exStore`'s mirrors. -/
theorem deleted_noop_and_idempotent_witness :
    (∀ x ∈ exStore.users, x.id ≠ 9) ∧ (∀ t ∈ exStore.sessions, t.id ≠ 9) ∧
    ((handleWsMessage exStore (.user_deleted 9)).users = exStore.users ∧
     (handleWsMessage exStore (.session_deleted 9)).sessions = exStore.sessions ∧
     handleWsMessage (handleWsMessage exStore (.user_deleted 9)) (.user_deleted 9)
       = handleWsMessage exStore (.user_deleted 9) ∧
     handleWsMessage (handleWsMessage exStore (.session_deleted 9)) (.session_deleted 9)
       = handleWsMessage exStore (.session_deleted 9)) :=
  ⟨by decide, by decide, deleted_noop_and_idempotent exStore 9 9 (by decide) (by decide)⟩

/-! ### C10 -/

/-- C10: a `user_updated` envelope whose target identifier equals the current
principal's identifier replaces the stored principal itself with the payload
(in addition to the wholesale replacement in the user mirror), leaving the
token unchanged; for any other target identifier the stored principal and
token are unchanged. -/
theorem principal_replaced_on_self_update (st : Store) (p : UserRec) (h : st.user = some p)
    (u : UserRec) (q : Int) (hq : q ≠ p.id) (u2 : UserRec) :
    (handleWsMessage st (.user_updated p.id u)).user = some u ∧
    (handleWsMessage st (.user_updated p.id u)).token = st.token ∧
    (handleWsMessage st (.user_updated p.id u)).users
      = st.users.map (fun x : UserRec => if x.id == p.id then u else x) ∧
    (handleWsMessage st (.user_updated q u2)).user = st.user ∧
    (handleWsMessage st (.user_updated q u2)).token = st.token := by
  have hb : (p.id == q) = false := beq_eq_false_iff_ne.mpr (Ne.symm hq)
  refine ⟨?_, ?_, ?_, ?_, ?_⟩ <;> simp [handleWsMessage, h, hb]

/-- Witness for `principal_replaced_on_self_update` at `exStore` (principal
id 5, other id 9). -/
theorem principal_replaced_on_self_update_witness :
    exStore.user = some exUser5 ∧ (9 : Int) ≠ exUser5.id ∧
    ((handleWsMessage exStore (.user_updated exUser5.id exUser5New)).user = some exUser5New ∧
     (handleWsMessage exStore (.user_updated exUser5.id exUser5New)).token = exStore.token ∧
     (handleWsMessage exStore (.user_updated exUser5.id exUser5New)).users
       = exStore.users.map (fun x : UserRec => if x.id == exUser5.id then exUser5New else x) ∧
     (handleWsMessage exStore (.user_updated 9 exUser7)).user = exStore.user ∧
     (handleWsMessage exStore (.user_updated 9 exUser7)).token = exStore.token) :=
  ⟨rfl, by decide,
    principal_replaced_on_self_update exStore exUser5 rfl exUser5New 9 (by decide) exUser7⟩

end Dashboard
